import Mathlib

/-!
Verification of the task-store service in `python_api_flask.py`.

The program keeps a process-wide mutable list `tasks` of dictionaries
`{'id', 'title', 'description', 'done'}` and exposes five Flask handlers:
`get_tasks`, `get_task`, `create_task`, `update_task`, `delete_task`.

Embedding choices:
- A Python/JSON scalar value is modelled by `JVal` (the handlers only ever
  store scalars in task fields; the body of a request may assign a value of
  any scalar type to any field, mirroring the absence of type validation).
- A parsed JSON object body is an association list `Body`; `request.json`
  is `Option Body`, with `none` standing for an absent or unparseable body.
- Python truthiness of `request.json` (`not request.json`) is `jsonFalsy`:
  true for `none` (absent/unparseable) and for the empty object `{}`.
- Each handler is a pure function from the current task list (plus its
  arguments) to the new task list and a `(body, status)` response pair.
  `create_task` returns `Option _`: `none` models the uncaught `IndexError`
  raised by `tasks[-1]` on an empty list.
-/

namespace TaskStore

/-- A JSON/Python scalar value, as stored in task fields and request bodies. -/
inductive JVal where
  | jnull
  | jbool (b : Bool)
  | jnum (n : Int)
  | jstr (s : String)
deriving DecidableEq, Repr

/-- A parsed JSON object body: association list of key/value pairs
(Python dict keys are unique; the handlers only read keys via `get`/`in`). -/
abbrev Body := List (String × JVal)

/-- A task record, mirroring the dict
`{'id': ..., 'title': ..., 'description': ..., 'done': ...}`.
The `id` is always written as an integer by the code; the other three fields
can be overwritten by `update_task` with a value of any type. -/
structure Task where
  id : Int
  title : JVal
  description : JVal
  done : JVal
deriving DecidableEq, Repr

/-- A JSON response body: `{'tasks': ...}`, `{'task': ...}`, `{'error': ...}`
or `{'result': ...}`. -/
inductive RespBody where
  | tasksB (ts : List Task)
  | taskB (t : Task)
  | errorB (msg : String)
  | resultB (b : Bool)
deriving DecidableEq, Repr

/-- A response: JSON body plus HTTP status code (`jsonify(..)` alone is 200). -/
abbrev Resp := RespBody × Nat

/-- Python `d.get(k, dflt)` on a dict. -/
def dictGet (b : Body) (k : String) (dflt : JVal) : JVal :=
  match b.find? (fun kv => kv.1 == k) with
  | some kv => kv.2
  | none => dflt

/-- Python `k in d` on a dict. -/
def hasKey (b : Body) (k : String) : Bool :=
  b.any (fun kv => kv.1 == k)

/-- Python truthiness test `not request.json`: true when the body is absent
or unparseable (`request.json` is `None`) and also for the empty object `{}`
(an empty dict is falsy in Python). -/
def jsonFalsy : Option Body → Bool
  | none => true
  | some [] => true
  | some (_ :: _) => false

/-- Python `'title' in request.json` (guarded by the falsy check in the code,
so it is only reached on a dict). -/
def bodyHasTitle : Option Body → Bool
  | none => false
  | some b => hasKey b "title"

/-- The first seeded sample task. -/
def task1 : Task :=
  { id := 1
    title := JVal.jstr "Task 1"
    description := JVal.jstr "Description for Task 1"
    done := JVal.jbool false }

/-- The second seeded sample task. -/
def task2 : Task :=
  { id := 2
    title := JVal.jstr "Task 2"
    description := JVal.jstr "Description for Task 2"
    done := JVal.jbool false }

/-- The seeded initial state: two sample tasks with ids 1 and 2. -/
def initialTasks : List Task := [task1, task2]

/-- `GET /tasks`: return the whole collection under key `tasks`, status 200. -/
def get_tasks (tasks : List Task) : Resp :=
  (RespBody.tasksB tasks, 200)

/-- `GET /tasks/<int:task_id>`:
`task = [task for task in tasks if task['id'] == task_id]`; 404 if empty,
else the first match under key `task`, status 200. -/
def get_task (tasks : List Task) (task_id : Int) : Resp :=
  match tasks.filter (fun t => t.id == task_id) with
  | [] => (RespBody.errorB "Task not found", 404)
  | t :: _ => (RespBody.taskB t, 200)

/-- `POST /tasks`: reject with 400 when `not request.json or 'title' not in
request.json`; otherwise build a task with id `tasks[-1]['id'] + 1`, title
`request.json['title']` (present, so the `jnull` default of `dictGet` is
never used), description `request.json.get('description', "")`, done false;
append it and return it with status 201.  `tasks[-1]` on an empty list
raises `IndexError`, modelled by the `none` result. -/
def create_task (tasks : List Task) (body : Option Body) :
    Option (List Task × Resp) :=
  if jsonFalsy body || !(bodyHasTitle body) then
    some (tasks, (RespBody.errorB "Title is required", 400))
  else
    match tasks.getLast? with
    | none => none
    | some last =>
      let b := body.getD []
      let task : Task :=
        { id := last.id + 1,
          title := dictGet b "title" JVal.jnull,
          description := dictGet b "description" (JVal.jstr ""),
          done := JVal.jbool false }
      some (tasks ++ [task], (RespBody.taskB task, 201))

/-- Replace the first task whose id is `task_id` by `t'` (the in-place
mutation of `task[0]`, the first element the comprehension matched). -/
def updateFirst (tasks : List Task) (task_id : Int) (t' : Task) : List Task :=
  match tasks with
  | [] => []
  | t :: rest =>
    if t.id == task_id then t' :: rest else t :: updateFirst rest task_id t'

/-- The task produced by the three field assignments of `update_task`:
each of title/description/done becomes `request.json.get(field, old value)`;
the `id` field is never assigned. -/
def mergeTask (b : Body) (t : Task) : Task :=
  { id := t.id,
    title := dictGet b "title" t.title,
    description := dictGet b "description" t.description,
    done := dictGet b "done" t.done }

/-- `PUT /tasks/<int:task_id>`: 404 when no task matches; then 400 when
`not request.json`; otherwise overwrite each of title/description/done with
`request.json.get(field, old value)` on the first matching task (its `id`
is never written) and return the updated task with status 200. -/
def update_task (tasks : List Task) (task_id : Int) (body : Option Body) :
    List Task × Resp :=
  match tasks.filter (fun t => t.id == task_id) with
  | [] => (tasks, (RespBody.errorB "Task not found", 404))
  | t :: _ =>
    if jsonFalsy body then
      (tasks, (RespBody.errorB "No data provided", 400))
    else
      let b := body.getD []
      (updateFirst tasks task_id (mergeTask b t), (RespBody.taskB (mergeTask b t), 200))

/-- `DELETE /tasks/<int:task_id>`: 404 when no task matches; otherwise
`tasks.remove(task[0])` — remove the first element equal to the first
match — and return `{'result': True}` with status 200. -/
def delete_task (tasks : List Task) (task_id : Int) : List Task × Resp :=
  match tasks.filter (fun t => t.id == task_id) with
  | [] => (tasks, (RespBody.errorB "Task not found", 404))
  | t :: _ => (tasks.erase t, (RespBody.resultB true, 200))

/-- One invocation of a public operation. -/
inductive Op where
  | list
  | get (task_id : Int)
  | create (body : Option Body)
  | update (task_id : Int) (body : Option Body)
  | delete (task_id : Int)

/-- State transition of one operation (`none` when the operation crashes). -/
def applyOp (tasks : List Task) : Op → Option (List Task)
  | Op.list => some tasks
  | Op.get _ => some tasks
  | Op.create body => (create_task tasks body).map (fun r => r.1)
  | Op.update tid body => some (update_task tasks tid body).1
  | Op.delete tid => some (delete_task tasks tid).1

/-- Run a sequence of operations from a state. -/
def runOps (tasks : List Task) : List Op → Option (List Task)
  | [] => some tasks
  | op :: ops => (applyOp tasks op).bind (fun s => runOps s ops)

/-- A state is reachable when some sequence of public operations produces it
from the seeded initial state. -/
def Reachable (s : List Task) : Prop :=
  ∃ ops, runOps initialTasks ops = some s

/-- Invariant: ids strictly increase along the collection (so they are
pairwise distinct and the last task carries the maximum id). -/
def IdSorted (l : List Task) : Prop :=
  l.Pairwise (fun a b => a.id < b.id)

/-- The task the concrete scenario of the spec creates: `POST /tasks
{"title": "Task 3"}`. -/
def task3 : Task :=
  { id := 3
    title := JVal.jstr "Task 3"
    description := JVal.jstr ""
    done := JVal.jbool false }

/-- First task of the id-reuse scenario: created by `POST {"title": "A"}`
on the seeded state, receiving id 3. -/
def c1TaskA : Task :=
  { id := 3, title := JVal.jstr "A", description := JVal.jstr "", done := JVal.jbool false }

/-- Second task of the id-reuse scenario: created by `POST {"title": "B"}`
after `c1TaskA` was deleted — it receives id 3 again. -/
def c1TaskB : Task :=
  { id := 3, title := JVal.jstr "B", description := JVal.jstr "", done := JVal.jbool false }

/-- Task created by the first create of the monotonicity scenario. -/
def c9TaskA : Task :=
  { id := 3, title := JVal.jstr "A", description := JVal.jstr "", done := JVal.jbool false }

/-- Task created by the second create of the monotonicity scenario. -/
def c9TaskB : Task :=
  { id := 4, title := JVal.jstr "B", description := JVal.jstr "", done := JVal.jbool false }

example : get_task initialTasks 2 = (RespBody.taskB task2, 200) := by
  decide

example : create_task initialTasks (some [("title", JVal.jstr "Task 3")]) =
    some (initialTasks ++ [task3], (RespBody.taskB task3, 201)) := by
  decide

example : runOps initialTasks [Op.delete 1, Op.delete 2] = some [] := by
  decide

example : create_task [] (some [("title", JVal.jstr "T")]) = none := by
  decide

example : update_task initialTasks 1 (some []) =
    (initialTasks, (RespBody.errorB "No data provided", 400)) := by
  decide

/-! ### Inversion and invariant lemmas -/

/-- The head of a filtered list satisfies the filter predicate (for our id
predicate: the first match of the comprehension has the requested id). -/
theorem filter_head_prop {l : List Task} {p : Task → Bool} {t : Task}
    (h : (l.filter p).head? = some t) : p t = true := by
  obtain ⟨ys, hys⟩ := List.head?_eq_some_iff.1 h
  exact List.of_mem_filter (l := l) (hys ▸ List.mem_cons_self t ys)

/-- Inversion of a successful `create_task`: the collection was non-empty,
the new task got id `last.id + 1` and was appended, and the status is 201. -/
theorem create_task_success {tasks s' : List Task} {body : Option Body}
    {t : Task} {st : Nat}
    (h : create_task tasks body = some (s', (RespBody.taskB t, st))) :
    ∃ last, tasks.getLast? = some last ∧ t.id = last.id + 1 ∧
      s' = tasks ++ [t] ∧ st = 201 := by
  unfold create_task at h
  split at h
  · simp at h
  · split at h
    · exact absurd h (by simp)
    · rename_i last hl
      injection h with h1
      injection h1 with hA h2
      injection h2 with hC hD
      injection hC with hT
      subst hA; subst hT; subst hD
      exact ⟨last, hl, rfl, rfl, rfl⟩

/-- The state produced by any `create_task` call: unchanged on the 400
branch, otherwise the old state with one task of id `last.id + 1` appended. -/
theorem create_task_state {tasks s₁ : List Task} {body : Option Body} {r : Resp}
    (h : create_task tasks body = some (s₁, r)) :
    s₁ = tasks ∨ ∃ last t, tasks.getLast? = some last ∧ t.id = last.id + 1 ∧
      s₁ = tasks ++ [t] := by
  unfold create_task at h
  split at h
  · injection h with h1
    injection h1 with hA hB
    exact Or.inl hA.symm
  · split at h
    · exact absurd h (by simp)
    · rename_i last hl
      injection h with h1
      injection h1 with hA hB
      exact Or.inr ⟨last, _, hl, rfl, hA.symm⟩

/-- The state produced by any `update_task` call: unchanged, or the first
task of the requested id replaced by a task with that same id. -/
theorem update_task_state (tasks : List Task) (tid : Int) (body : Option Body) :
    (update_task tasks tid body).1 = tasks ∨
      ∃ t', t'.id = tid ∧ (update_task tasks tid body).1 = updateFirst tasks tid t' := by
  unfold update_task
  split
  · exact Or.inl rfl
  · rename_i t tail hfil
    split
    · exact Or.inl rfl
    · refine Or.inr ⟨_, ?_, rfl⟩
      show t.id = tid
      have ht : t ∈ tasks.filter (fun u => u.id == tid) := by
        rw [hfil]; exact List.mem_cons_self t tail
      exact eq_of_beq (by simpa using List.of_mem_filter ht)

/-- The state produced by any `delete_task` call: unchanged or an `erase`. -/
theorem delete_task_state (tasks : List Task) (tid : Int) :
    (delete_task tasks tid).1 = tasks ∨
      ∃ t, (delete_task tasks tid).1 = tasks.erase t := by
  unfold delete_task
  split
  · exact Or.inl rfl
  · rename_i t tail hfil
    exact Or.inr ⟨t, rfl⟩

/-- In an id-sorted collection every id is at most the last task's id. -/
theorem id_le_of_getLast {l : List Task} {last u : Task}
    (hs : IdSorted l) (hl : l.getLast? = some last) (hu : u ∈ l) :
    u.id ≤ last.id := by
  obtain ⟨ys, rfl⟩ := List.getLast?_eq_some_iff.1 hl
  rcases List.mem_append.1 hu with hy | hlast
  · exact le_of_lt ((List.pairwise_append.1 hs).2.2 u hy last (List.mem_singleton_self last))
  · rw [List.mem_singleton.1 hlast]

/-- Appending a task whose id exceeds every current id keeps the collection
id-sorted. -/
theorem idSorted_append_last {l : List Task} {x : Task}
    (hs : IdSorted l) (hlt : ∀ u ∈ l, u.id < x.id) : IdSorted (l ++ [x]) := by
  refine List.pairwise_append.2 ⟨hs, List.pairwise_singleton _ _, ?_⟩
  intro a ha b hb
  rw [List.mem_singleton.1 hb]
  exact hlt a ha

/-- `updateFirst` with a replacement of the replaced id leaves the id
sequence of the collection unchanged. -/
theorem updateFirst_map_id (l : List Task) (tid : Int) (t' : Task)
    (h : t'.id = tid) :
    (updateFirst l tid t').map Task.id = l.map Task.id := by
  induction l with
  | nil => rfl
  | cons u us ih =>
    rw [updateFirst]
    split
    · rename_i hu
      simp only [List.map_cons]
      rw [h.trans (eq_of_beq hu).symm]
    · simp only [List.map_cons, ih]

/-- `updateFirst` with a replacement of the replaced id preserves
id-sortedness. -/
theorem idSorted_updateFirst {l : List Task} {tid : Int} {t' : Task}
    (h : t'.id = tid) (hs : IdSorted l) : IdSorted (updateFirst l tid t') := by
  have hmap : (updateFirst l tid t').map Task.id = l.map Task.id :=
    updateFirst_map_id l tid t' h
  have hs' : (l.map Task.id).Pairwise (· < ·) := List.pairwise_map.2 hs
  rw [← hmap] at hs'
  exact List.pairwise_map.1 hs'

/-- Erasing preserves id-sortedness. -/
theorem idSorted_erase (l : List Task) (a : Task) (hs : IdSorted l) :
    IdSorted (l.erase a) :=
  List.Pairwise.sublist (List.erase_sublist a l) hs

/-- The seeded initial state is id-sorted. -/
theorem idSorted_initial : IdSorted initialTasks := by
  rw [IdSorted, initialTasks]
  refine List.Pairwise.cons ?_ (List.pairwise_singleton _ _)
  intro b hb
  rw [List.mem_singleton.1 hb]
  decide

/-- Every single public operation preserves id-sortedness. -/
theorem applyOp_sorted {s s' : List Task} {op : Op}
    (h : applyOp s op = some s') (hs : IdSorted s) : IdSorted s' := by
  cases op with
  | list =>
    rw [applyOp, Option.some.injEq] at h
    rw [← h]; exact hs
  | get tid =>
    rw [applyOp, Option.some.injEq] at h
    rw [← h]; exact hs
  | create body =>
    rw [applyOp] at h
    cases hc : create_task s body with
    | none => rw [hc] at h; cases h
    | some pr =>
      rw [hc] at h
      obtain ⟨s₁, r⟩ := pr
      simp only [Option.map_some', Option.some.injEq] at h
      rw [← h]
      rcases create_task_state hc with heq | ⟨last, t, hlast, hid, heq⟩
      · rw [heq]; exact hs
      · rw [heq]
        refine idSorted_append_last hs ?_
        intro u hu
        have := id_le_of_getLast hs hlast hu
        omega
  | update tid body =>
    rw [applyOp, Option.some.injEq] at h
    rw [← h]
    rcases update_task_state s tid body with heq | ⟨t', ht', heq⟩
    · rw [heq]; exact hs
    · rw [heq]; exact idSorted_updateFirst ht' hs
  | delete tid =>
    rw [applyOp, Option.some.injEq] at h
    rw [← h]
    rcases delete_task_state s tid with heq | ⟨t, heq⟩
    · rw [heq]; exact hs
    · rw [heq]; exact idSorted_erase s t hs

/-- Running any operation sequence preserves id-sortedness. -/
theorem runOps_sorted : ∀ (ops : List Op) (s s' : List Task),
    runOps s ops = some s' → IdSorted s → IdSorted s'
  | [], s, s', h, hs => by
    rw [runOps, Option.some.injEq] at h
    exact h ▸ hs
  | op :: ops, s, s', h, hs => by
    rw [runOps] at h
    cases hop : applyOp s op with
    | none => rw [hop] at h; cases h
    | some s₁ =>
      rw [hop] at h
      exact runOps_sorted ops s₁ s' h (applyOp_sorted hop hs)

/-- Every reachable state is id-sorted (hence its ids are pairwise
distinct and the last task carries the maximum id). -/
theorem reachable_sorted {s : List Task} (h : Reachable s) : IdSorted s := by
  obtain ⟨ops, hops⟩ := h
  exact runOps_sorted ops initialTasks s hops idSorted_initial

/-- Replacing the first match by itself is the identity
(so the 400 branch of `update_task` also fits the merge equation). -/
theorem updateFirst_self {l : List Task} {tid : Int} {t : Task}
    (h : (l.filter (fun u => u.id == tid)).head? = some t) :
    updateFirst l tid t = l := by
  induction l with
  | nil => simp at h
  | cons x xs ih =>
    rw [updateFirst]
    by_cases hx : (x.id == tid) = true
    · rw [if_pos hx]
      rw [List.filter_cons_of_pos (p := fun u : Task => u.id == tid) (a := x) hx,
        List.head?_cons, Option.some.injEq] at h
      rw [h]
    · rw [if_neg hx]
      rw [List.filter_cons_of_neg (p := fun u : Task => u.id == tid) (a := x) hx] at h
      rw [ih h]

/-- `tasks.remove(task[0])` — erasing the head of the matching sublist —
removes exactly the first element satisfying the predicate: an earlier
element equal to the first match would itself match. -/
theorem erase_eq_eraseP {l : List Task} {p : Task → Bool} {t : Task}
    (h : (l.filter p).head? = some t) : l.erase t = l.eraseP p := by
  induction l with
  | nil => simp at h
  | cons x xs ih =>
    by_cases hx : p x = true
    · rw [List.filter_cons_of_pos hx, List.head?_cons, Option.some.injEq] at h
      rw [← h, List.erase_cons_head, List.eraseP_cons_of_pos hx]
    · rw [List.filter_cons_of_neg hx] at h
      have hpt : p t = true := filter_head_prop h
      have hne : ¬((x == t) = true) := fun hbe => hx ((eq_of_beq hbe).symm ▸ hpt)
      rw [List.erase_cons_tail hne, List.eraseP_cons_of_neg hx, ih h]

/-- In an id-sorted collection at most one task carries a given id, so
after the first match is removed no match remains. -/
theorem eraseP_filter_nil {l : List Task} {tid : Int} (hs : IdSorted l) :
    (l.eraseP (fun u => u.id == tid)).filter (fun u => u.id == tid) = [] := by
  induction l with
  | nil => rfl
  | cons x xs ih =>
    by_cases hx : (x.id == tid) = true
    · rw [List.eraseP_cons_of_pos (p := fun u : Task => u.id == tid) (a := x) hx,
        List.filter_eq_nil_iff]
      intro u hu
      have hlt : x.id < u.id := (List.pairwise_cons.1 hs).1 u hu
      have hxe : x.id = tid := eq_of_beq hx
      intro hbe
      have := eq_of_beq hbe
      omega
    · rw [List.eraseP_cons_of_neg (p := fun u : Task => u.id == tid) (a := x) hx,
        List.filter_cons_of_neg (p := fun u : Task => u.id == tid) (a := x) hx]
      exact ih hs.of_cons

/-- `update_task` on an existing id with a falsy body (absent, unparseable,
or the empty object) leaves the state unchanged and answers 400. -/
theorem update_task_eq_400 (tasks : List Task) (tid : Int) (body : Option Body)
    (t : Task) (tail : List Task)
    (hfil : tasks.filter (fun u => u.id == tid) = t :: tail)
    (hjf : jsonFalsy body = true) :
    update_task tasks tid body = (tasks, (RespBody.errorB "No data provided", 400)) := by
  rw [update_task, hfil, hjf]
  rfl

/-- `update_task` on an existing id with a truthy body merges the body into
the first matching task and answers 200. -/
theorem update_task_eq_200 (tasks : List Task) (tid : Int) (body : Option Body)
    (t : Task) (tail : List Task)
    (hfil : tasks.filter (fun u => u.id == tid) = t :: tail)
    (hjf : jsonFalsy body = false) :
    update_task tasks tid body =
      (updateFirst tasks tid (mergeTask (body.getD []) t),
        (RespBody.taskB (mergeTask (body.getD []) t), 200)) := by
  rw [update_task, hfil, hjf]
  rfl

/-! ### The claims -/

/-- Claim C1, counterexample: ids ARE reused after deletion. From the seeded
state, `POST {"title": "A"}` creates a task with id 3; deleting id 3 restores
the seed state; `POST {"title": "B"}` then assigns id 3 again — the same id
as the already-created (and deleted) task A. -/
theorem C1_counterexample :
    create_task initialTasks (some [("title", JVal.jstr "A")]) =
      some (initialTasks ++ [c1TaskA], (RespBody.taskB c1TaskA, 201)) ∧
    (delete_task (initialTasks ++ [c1TaskA]) c1TaskA.id).1 = initialTasks ∧
    create_task initialTasks (some [("title", JVal.jstr "B")]) =
      some (initialTasks ++ [c1TaskB], (RespBody.taskB c1TaskB, 201)) ∧
    c1TaskB.id = c1TaskA.id := by
  decide

/-- Claim C1, amended: every successful create on a reachable state assigns
id = (id of the last task) + 1, which strictly exceeds the id of every task
currently in the collection (the collection is id-sorted); ids of deleted
tasks, however, can be reused. -/
theorem C1_new_id_fresh (s s' : List Task) (body : Option Body) (t : Task)
    (hreach : Reachable s)
    (hc : create_task s body = some (s', (RespBody.taskB t, 201))) :
    s.getLast?.map (fun u => u.id + 1) = some t.id ∧
    s.all (fun u => decide (u.id < t.id)) = true := by
  obtain ⟨last, hlast, hid, hs', _⟩ := create_task_success hc
  constructor
  · rw [hlast, Option.map_some', hid]
  · rw [List.all_eq_true]
    intro u hu
    have hle := id_le_of_getLast (reachable_sorted hreach) hlast hu
    simp only [decide_eq_true_eq]
    omega

/-- Claim C1 witness: creating on the seeded state yields id 3 = 2 + 1,
larger than both existing ids. -/
theorem C1_new_id_fresh_witness :
    initialTasks.getLast?.map (fun u => u.id + 1) = some task3.id ∧
    initialTasks.all (fun u => decide (u.id < task3.id)) = true :=
  C1_new_id_fresh initialTasks (initialTasks ++ [task3])
    (some [("title", JVal.jstr "Task 3")]) task3 ⟨[], rfl⟩ (by decide)

/-- Claim C2, counterexample: the empty collection IS reachable through the
public operations (delete both seeded tasks), and a create with a valid
title invoked there crashes on the missing last element. -/
theorem C2_counterexample :
    runOps initialTasks [Op.delete 1, Op.delete 2] = some [] ∧
    runOps initialTasks
      [Op.delete 1, Op.delete 2, Op.create (some [("title", JVal.jstr "T")])] = none := by
  decide

/-- Claim C2, amended: deleting the two seeded tasks empties the collection,
and `create_task` on the empty collection with any truthy body containing a
title faults (reads the non-existent last element). -/
theorem C2_empty_reachable (body : Option Body)
    (h : jsonFalsy body = false ∧ bodyHasTitle body = true) :
    runOps initialTasks [Op.delete 1, Op.delete 2] = some [] ∧
    create_task [] body = none := by
  refine ⟨by decide, ?_⟩
  rw [create_task, h.1, h.2, if_neg (by decide)]
  rfl

/-- Claim C2 witness: the failing create with body `{"title": "T"}`. -/
theorem C2_empty_reachable_witness :
    runOps initialTasks [Op.delete 1, Op.delete 2] = some [] ∧
    create_task [] (some [("title", JVal.jstr "T")]) = none :=
  C2_empty_reachable (some [("title", JVal.jstr "T")]) (by decide)

/-- Claim C3: on a non-empty collection, a body with a `title` key makes
`create_task` append exactly one task — id = last id + 1, title from the
body, description from the body or `""`, done = false — and return it under
key `task` with status 201. -/
theorem C3_create_post (tasks : List Task) (b : Body) (last : Task)
    (hlast : tasks.getLast? = some last) (htitle : hasKey b "title" = true) :
    create_task tasks (some b) =
      some (tasks ++ [⟨last.id + 1, dictGet b "title" JVal.jnull,
          dictGet b "description" (JVal.jstr ""), JVal.jbool false⟩],
        (RespBody.taskB ⟨last.id + 1, dictGet b "title" JVal.jnull,
          dictGet b "description" (JVal.jstr ""), JVal.jbool false⟩, 201)) := by
  have hb : jsonFalsy (some b) = false := by
    cases b with
    | nil => simp [hasKey] at htitle
    | cons kv rest => rfl
  rw [create_task, show bodyHasTitle (some b) = true from htitle, hb,
    if_neg (by decide), hlast]
  rfl

/-- Claim C3 witness: the concrete scenario `POST {"title": "Task 3"}` on
the seeded state. -/
theorem C3_create_post_witness :
    create_task initialTasks (some [("title", JVal.jstr "Task 3")]) =
      some (initialTasks ++ [⟨task2.id + 1,
          dictGet [("title", JVal.jstr "Task 3")] "title" JVal.jnull,
          dictGet [("title", JVal.jstr "Task 3")] "description" (JVal.jstr ""),
          JVal.jbool false⟩],
        (RespBody.taskB ⟨task2.id + 1,
          dictGet [("title", JVal.jstr "Task 3")] "title" JVal.jnull,
          dictGet [("title", JVal.jstr "Task 3")] "description" (JVal.jstr ""),
          JVal.jbool false⟩, 201)) :=
  C3_create_post initialTasks [("title", JVal.jstr "Task 3")] task2 rfl rfl

/-- Claim C4, counterexample: the empty JSON object `{}` is parseable yet
`update_task` answers 400 "No data provided" (Python: `not {}` is true),
not 200 as the claim asserts. -/
theorem C4_counterexample :
    update_task initialTasks 1 (some []) =
      (initialTasks, (RespBody.errorB "No data provided", 400)) ∧
    (update_task initialTasks 1 (some [])).2.2 ≠ 200 := by
  decide

/-- Claim C4, amended: on an existing id (first match `t`), `update_task`
answers 400 "No data provided" exactly when the body is falsy — absent,
unparseable, OR the empty object; any non-empty parseable object (even one
omitting every recognized field) gets status 200 with the merged — possibly
unchanged — task wrapped under key `task`. -/
theorem C4_no_data_iff (tasks : List Task) (tid : Int) (body : Option Body) (t : Task)
    (hmatch : (tasks.filter (fun u => u.id == tid)).head? = some t) :
    ((update_task tasks tid body).2 = (RespBody.errorB "No data provided", 400) ↔
      jsonFalsy body = true) ∧
    (jsonFalsy body = false →
      update_task tasks tid body =
        (updateFirst tasks tid (mergeTask (body.getD []) t),
          (RespBody.taskB (mergeTask (body.getD []) t), 200))) := by
  obtain ⟨tail, hfil⟩ := List.head?_eq_some_iff.1 hmatch
  cases hjf : jsonFalsy body with
  | true =>
    rw [update_task_eq_400 tasks tid body t tail hfil hjf]
    exact ⟨⟨fun _ => rfl, fun _ => rfl⟩, fun hf => absurd hf (by decide)⟩
  | false =>
    rw [update_task_eq_200 tasks tid body t tail hfil hjf]
    refine ⟨⟨fun h => absurd h (by simp), fun h => absurd h (by decide)⟩,
      fun _ => rfl⟩

/-- Claim C4 witness: instantiated at the seeded state, id 1, with the
non-empty body `{"done": true}` — not the 400 error, and the full 200
response wrapping the merged task under key `task`. -/
theorem C4_no_data_iff_witness :
    ((update_task initialTasks 1 (some [("done", JVal.jbool true)])).2 =
        (RespBody.errorB "No data provided", 400) ↔
      jsonFalsy (some [("done", JVal.jbool true)]) = true) ∧
    (jsonFalsy (some [("done", JVal.jbool true)]) = false →
      update_task initialTasks 1 (some [("done", JVal.jbool true)]) =
        (updateFirst initialTasks 1
            (mergeTask ((some [("done", JVal.jbool true)]).getD []) task1),
          (RespBody.taskB
            (mergeTask ((some [("done", JVal.jbool true)]).getD []) task1), 200))) :=
  C4_no_data_iff initialTasks 1 (some [("done", JVal.jbool true)]) task1 (by decide)

/-- Claim C5: for any existing task (first match `t`) and any parseable
object body, the new state replaces the first matching task by the merge
that overwrites exactly the fields whose keys the body contains, and the
merged task keeps the id `t.id` (an `id` key in the body is ignored). -/
theorem C5_update_frame (tasks : List Task) (tid : Int) (b : Body) (t : Task)
    (hmatch : (tasks.filter (fun u => u.id == tid)).head? = some t) :
    (update_task tasks tid (some b)).1 = updateFirst tasks tid (mergeTask b t) ∧
    (mergeTask b t).id = t.id := by
  obtain ⟨tail, hfil⟩ := List.head?_eq_some_iff.1 hmatch
  refine ⟨?_, rfl⟩
  cases b with
  | nil =>
    rw [update_task_eq_400 tasks tid (some []) t tail hfil rfl]
    exact (updateFirst_self hmatch).symm
  | cons kv rest =>
    rw [update_task_eq_200 tasks tid (some (kv :: rest)) t tail hfil rfl]
    rfl

/-- Claim C5 witness: `PUT /tasks/1 {"done": true, "id": 99}` on the seeded
state merges only `done` into task 1 and ignores the `id` key. -/
theorem C5_update_frame_witness :
    (update_task initialTasks 1
        (some [("done", JVal.jbool true), ("id", JVal.jnum 99)])).1 =
      updateFirst initialTasks 1
        (mergeTask [("done", JVal.jbool true), ("id", JVal.jnum 99)] task1) ∧
    (mergeTask [("done", JVal.jbool true), ("id", JVal.jnum 99)] task1).id = task1.id :=
  C5_update_frame initialTasks 1 [("done", JVal.jbool true), ("id", JVal.jnum 99)]
    task1 (by decide)

/-- Claim C6: deleting an existing id on a reachable state removes exactly
the first task whose id matches, answers `{"result": true}` with 200, the
length shrinks by one, and a subsequent get of that id answers 404. -/
theorem C6_delete_post (tasks : List Task) (tid : Int)
    (hreach : Reachable tasks)
    (hex : tasks.filter (fun u => u.id == tid) ≠ []) :
    delete_task tasks tid =
      (tasks.eraseP (fun u => u.id == tid), (RespBody.resultB true, 200)) ∧
    (delete_task tasks tid).1.length + 1 = tasks.length ∧
    get_task (delete_task tasks tid).1 tid = (RespBody.errorB "Task not found", 404) := by
  obtain ⟨t, tail, hfil⟩ := List.exists_cons_of_ne_nil hex
  have hhead : (tasks.filter (fun u => u.id == tid)).head? = some t := by
    rw [hfil]; rfl
  have hdel : delete_task tasks tid = (tasks.erase t, (RespBody.resultB true, 200)) := by
    rw [delete_task, hfil]
  have hmem : t ∈ tasks :=
    List.mem_of_mem_filter (p := fun u => u.id == tid)
      (hfil ▸ List.mem_cons_self t tail)
  have herase := erase_eq_eraseP hhead
  refine ⟨by rw [hdel, herase], ?_, ?_⟩
  · rw [hdel]
    show (tasks.erase t).length + 1 = tasks.length
    rw [List.length_erase_of_mem hmem]
    have := List.length_pos_of_mem hmem
    omega
  · rw [hdel]
    show get_task (tasks.erase t) tid = (RespBody.errorB "Task not found", 404)
    rw [get_task, herase, eraseP_filter_nil (reachable_sorted hreach)]

/-- Claim C6 witness: `DELETE /tasks/2` on the seeded state. -/
theorem C6_delete_post_witness :
    delete_task initialTasks 2 =
      (initialTasks.eraseP (fun u => u.id == 2), (RespBody.resultB true, 200)) ∧
    (delete_task initialTasks 2).1.length + 1 = initialTasks.length ∧
    get_task (delete_task initialTasks 2).1 2 = (RespBody.errorB "Task not found", 404) :=
  C6_delete_post initialTasks 2 ⟨[], rfl⟩ (by decide)

/-- Claim C7: whenever the body is absent/unparseable or carries no `title`
key (this includes the empty object), `create_task` answers 400
"Title is required" and returns the collection entirely unchanged. -/
theorem C7_missing_title (tasks : List Task) (body : Option Body)
    (h : body = none ∨ bodyHasTitle body = false) :
    create_task tasks body = some (tasks, (RespBody.errorB "Title is required", 400)) := by
  have hcond : (jsonFalsy body || !(bodyHasTitle body)) = true := by
    rcases h with rfl | hbt
    · rfl
    · rw [hbt]; simp
  rw [create_task, hcond]
  rfl

/-- Claim C7 witness: `POST {"description": "no title"}` on the seeded
state. -/
theorem C7_missing_title_witness :
    create_task initialTasks (some [("description", JVal.jstr "no title")]) =
      some (initialTasks, (RespBody.errorB "Title is required", 400)) :=
  C7_missing_title initialTasks (some [("description", JVal.jstr "no title")])
    (Or.inr (by decide))

/-- Claim C8: on a reachable non-empty state, after a successful create
returns task `t`, getting `t.id` on the resulting state returns exactly `t`
under key `task` with status 200. -/
theorem C8_get_roundtrip (tasks s' : List Task) (b : Body) (t : Task)
    (hreach : Reachable tasks) (hne : tasks ≠ [])
    (hc : create_task tasks (some b) = some (s', (RespBody.taskB t, 201))) :
    get_task s' t.id = (RespBody.taskB t, 200) := by
  obtain ⟨last, hlast, hid, hs', _⟩ := create_task_success hc
  subst hs'
  have hfil : (tasks ++ [t]).filter (fun u => u.id == t.id) = [t] := by
    rw [List.filter_append]
    have h1 : tasks.filter (fun u => u.id == t.id) = [] := by
      rw [List.filter_eq_nil_iff]
      intro u hu hbe
      have hle := id_le_of_getLast (reachable_sorted hreach) hlast hu
      have := eq_of_beq hbe
      omega
    have h2 : [t].filter (fun u => u.id == t.id) = [t] := by
      simp
    rw [h1, h2]
    rfl
  rw [get_task, hfil]

/-- Claim C8 witness: create `{"title": "Task 3"}` on the seeded state,
then get id 3. -/
theorem C8_get_roundtrip_witness :
    get_task (initialTasks ++ [task3]) task3.id = (RespBody.taskB task3, 200) :=
  C8_get_roundtrip initialTasks (initialTasks ++ [task3])
    [("title", JVal.jstr "Task 3")] task3 ⟨[], rfl⟩ (by decide) (by decide)

/-- Claim C9: in two consecutive successful creates the second task's id
strictly exceeds the first task's id (it is one larger). -/
theorem C9_id_monotone (tasks s1 s2 : List Task) (b1 b2 : Option Body) (t1 t2 : Task)
    (h1 : create_task tasks b1 = some (s1, (RespBody.taskB t1, 201)))
    (h2 : create_task s1 b2 = some (s2, (RespBody.taskB t2, 201))) :
    t1.id < t2.id := by
  obtain ⟨la1, hla1, hid1, hs1, _⟩ := create_task_success h1
  obtain ⟨la2, hla2, hid2, hs2, _⟩ := create_task_success h2
  subst hs1
  rw [List.getLast?_concat] at hla2
  have heq : la2 = t1 := Option.some.inj hla2.symm
  subst heq
  omega

/-- Claim C9 witness: `POST {"title": "A"}` then `POST {"title": "B"}` on
the seeded state yield ids 3 and 4. -/
theorem C9_id_monotone_witness : c9TaskA.id < c9TaskB.id :=
  C9_id_monotone initialTasks (initialTasks ++ [c9TaskA])
    (initialTasks ++ [c9TaskA] ++ [c9TaskB])
    (some [("title", JVal.jstr "A")]) (some [("title", JVal.jstr "B")])
    c9TaskA c9TaskB (by decide) (by decide)

/-- Claim C10: when no task matches the id, `update_task` answers 404
"Task not found" with the collection unchanged, whatever the body — the
existence check precedes the body check, so 404 takes precedence over the
400 "No data provided" error. -/
theorem C10_update_notfound (tasks : List Task) (tid : Int) (body : Option Body)
    (h : tasks.filter (fun u => u.id == tid) = []) :
    update_task tasks tid body = (tasks, (RespBody.errorB "Task not found", 404)) := by
  rw [update_task, h]

/-- Claim C10 witness: `PUT /tasks/99` with an absent body on the seeded
state answers 404, not the 400 body error. -/
theorem C10_update_notfound_witness :
    update_task initialTasks 99 none =
      (initialTasks, (RespBody.errorB "Task not found", 404)) :=
  C10_update_notfound initialTasks 99 none (by decide)

end TaskStore
